import Mathlib

/-!
Shallow embedding of the hybrid-search demo (src/hybrid_search.py and
src/ingest.py) and proofs of the specification's claims about it.

Python floats and ints that only flow through the filter and score
plumbing are modelled as rationals; Python truthiness of a float is
modelled as being nonzero, and truthiness of an optional tuple as
Option.isSome.
-/

namespace HybridSearch

/-- One conjunct of the search filter, as built by create_filter in
src/hybrid_search.py.  The numeric-range dictionaries always carry a
min and an inclusive_min; max and inclusive_max are present only for
the year clause, hence the Option fields. -/
inductive Conjunct where
  | numericRange (field : String) (min : Rat) (max : Option Rat)
      (inclusive_min : Bool) (inclusive_max : Option Bool)
  | matchPhrase (field : String) (phrase : String)
deriving DecidableEq, Repr

/-- The value create_filter returns: a dictionary whose single key
"query" holds a dictionary with the key "conjuncts". -/
structure SearchFilter where
  conjuncts : List Conjunct
deriving DecidableEq, Repr

/-- Embedding of create_filter (src/hybrid_search.py lines 83-120).
year_range is truthy iff it is a supplied pair; rating is truthy iff
nonzero.  The three optional clauses are appended in source order:
year, rating, title. -/
def create_filter (year_range : Option (Int × Int)) (rating : Rat)
    (search_in_title : Bool) (title : String) : SearchFilter :=
  let year_field := "Released_Year"
  let rating_field := "IMDB_Rating"
  let title_field := "Series_Title"
  let year_ops : List Conjunct :=
    match year_range with
    | some yr =>
        [Conjunct.numericRange year_field (yr.1 : Rat) (some (yr.2 : Rat))
          true (some true)]
    | none => []
  let rating_ops : List Conjunct :=
    if rating ≠ 0 then
      [Conjunct.numericRange rating_field rating none false none]
    else []
  let title_ops : List Conjunct :=
    if search_in_title then
      [Conjunct.matchPhrase title_field title]
    else []
  { conjuncts := year_ops ++ rating_ops ++ title_ops }

/-- The field a conjunct constrains: the value under its "field" key. -/
def Conjunct.fieldName : Conjunct → String
  | .numericRange f _ _ _ _ => f
  | .matchPhrase f _ => f

/-- Modelled from the spec: a document as seen by the store's filter
evaluation (section 3): scalar numeric fields and text fields,
addressed by name. -/
structure Document where
  num : String → Option Rat
  text : String → Option String

/-- Modelled from the spec: how the external store evaluates a single
conjunct against a document (sections 3 and 4.3): numeric range with
independent inclusive flags on each side, phrase match on a text
field. -/
def matchesConjunct (d : Document) : Conjunct → Bool
  | .numericRange field min max inclusive_min inclusive_max =>
    match d.num field with
    | none => false
    | some v =>
        (if inclusive_min then decide (min ≤ v) else decide (min < v)) &&
        (match max with
         | none => true
         | some m =>
             if inclusive_max = some true then decide (v ≤ m)
             else decide (v < m))
  | .matchPhrase field phrase =>
    match d.text field with
    | none => false
    | some s => s.containsSubstr phrase

/-- Modelled from the spec: a filter predicate is a conjunction of its
clauses; the empty predicate matches every document (section 3). -/
def matchesFilter (d : Document) (f : SearchFilter) : Bool :=
  f.conjuncts.all (matchesConjunct d)

/-- Error taxonomy of the query path (spec section 7): InvalidArgument
for a bad k, EmbeddingServiceError from the embedding call,
StoreQueryError from the store search. -/
inductive SearchError where
  | invalidArgument (msg : String)
  | embeddingServiceError (msg : String)
  | storeQueryError (msg : String)
deriving DecidableEq, Repr

/-- The SDK vector query built in search_couchbase: field name, query
vector, number of candidates. -/
structure VectorQuery where
  field_name : String
  vector : List Rat
  num_candidates : Int
deriving DecidableEq, Repr

/-- Modelled from the spec: construction of the SDK VectorQuery, whose
code is outside this repository.  The store adapter contract demands
k at least 1 (section 4.3) and QueryEngine rejects k below 1 with
InvalidArgument (section 4.4), so construction with num_candidates
below 1 fails with InvalidArgument before any search is issued. -/
def VectorQuery.create (field_name : String) (vector : List Rat)
    (num_candidates : Int) : Except SearchError VectorQuery :=
  if num_candidates < 1 then
    Except.error (SearchError.invalidArgument
      "num_candidates must be at least 1")
  else
    Except.ok { field_name, vector, num_candidates }

/-- The SDK search request wrapping the vector query, as produced by
SearchRequest.create (VectorSearch.from_vector_query ...). -/
structure SearchRequest where
  vector_query : VectorQuery
deriving DecidableEq, Repr

/-- The SDK SearchOptions passed to the store search: result limit,
fields to return, and the raw filter options. -/
structure SearchOptions where
  limit : Int
  fields : List String
  raw : SearchFilter
deriving DecidableEq, Repr

/-- One result row as surfaced by the store search iterator: its
fields payload and its score.  The payload type is a parameter since
search_couchbase only forwards it. -/
structure SearchRow (α : Type) where
  fields : α
  score : Rat
deriving DecidableEq, Repr

/-- Embedding of search_couchbase (src/hybrid_search.py lines
123-169).  The embedding client and the scope's search are the two
remote calls, passed as oracles; both may fail.  The body embeds the
query text, builds the vector search request, issues the search, and
collects (row.fields, row.score) pairs in iterator order; the
try/except re-raises any store exception unchanged. -/
def search_couchbase {α : Type}
    (db_scope_search :
      String → SearchRequest → SearchOptions →
        Except SearchError (List (SearchRow α)))
    (index_name : String)
    (embed : String → Except SearchError (List Rat))
    (embedding_key : String) (search_text : String) (k : Int)
    (fields : List String) (search_options : SearchFilter) :
    Except SearchError (List (α × Rat)) := do
  let search_embedding ← embed search_text
  let vq ← VectorQuery.create embedding_key search_embedding k
  let search_req : SearchRequest := { vector_query := vq }
  let rows ← db_scope_search index_name search_req
    { limit := k, fields := fields, raw := search_options }
  return rows.map (fun row => (row.fields, row.score))

end HybridSearch

namespace Ingest

/-- One source row of the dataset as it reaches the ingest loop in
src/ingest.py: the fields that the loop itself touches are the
Overview text (embedded) and, representative of the rest, the title;
the other columns ride along unchanged and are irrelevant to the
claims. -/
structure MovieRow where
  series_title : String
  overview : String
deriving DecidableEq, Repr

/-- A document as upserted by the ingest loop: the original row plus
the Overview_embedding field added in place (src/ingest.py line 86). -/
structure IngestedDoc where
  row : MovieRow
  overview_embedding : List Rat
deriving DecidableEq, Repr

/-- Key-value view of the collection: upsert replaces the document
under an existing id and inserts under a fresh one. -/
def upsert (store : List (String × IngestedDoc)) (doc_id : String)
    (doc : IngestedDoc) : List (String × IngestedDoc) :=
  if store.any (fun p => p.1 = doc_id) then
    store.map (fun p => if p.1 = doc_id then (doc_id, doc) else p)
  else
    store ++ [(doc_id, doc)]

/-- The ids in the store, in insertion order. -/
def storeIds (store : List (String × IngestedDoc)) : List String :=
  store.map Prod.fst

/-- Outcome of the ingest script.  The single try/except wrapping the
whole loop (src/ingest.py lines 68-91) catches the first exception,
prints it and stops: aborted carries the store as left at that point
and the error; completed is the no-exception run. -/
inductive IngestOutcome where
  | completed (store : List (String × IngestedDoc))
  | aborted (store : List (String × IngestedDoc)) (err : String)
deriving DecidableEq, Repr

/-- Embedding of the ingest loop (src/ingest.py lines 85-88) under the
module-level try/except (lines 68-91).  Per row: generate the
embedding (remote call, may fail), draw a fresh id from the uuid4
stream (modelled as a function of the draw index, independent of the
row), upsert.  Any failure escapes the loop to the except clause,
which reports it and ends the run: rows after the failing one are not
processed. -/
def ingest_loop (embed : String → Except String (List Rat))
    (ids : Nat → String) :
    Nat → List MovieRow → List (String × IngestedDoc) → IngestOutcome
  | _, [], store => IngestOutcome.completed store
  | i, row :: rest, store =>
    match embed row.overview with
    | Except.error e => IngestOutcome.aborted store e
    | Except.ok emb =>
        let doc_id := ids i
        ingest_loop embed ids (i + 1) rest
          (upsert store doc_id { row := row, overview_embedding := emb })

/-- One run of the ingest script over a batch of rows, starting from a
given store state. -/
def ingest_run (embed : String → Except String (List Rat))
    (ids : Nat → String) (rows : List MovieRow)
    (store : List (String × IngestedDoc)) : IngestOutcome :=
  ingest_loop embed ids 0 rows store

/-- Closed form of the documents a fully successful run appends, when
the embedding oracle is total with value function embF and the id
stream starts at draw index i. -/
def expectedDocs (embF : String → List Rat) (ids : Nat → String) :
    Nat → List MovieRow → List (String × IngestedDoc)
  | _, [] => []
  | i, row :: rest =>
      (ids i, { row := row, overview_embedding := embF row.overview }) ::
        expectedDocs embF ids (i + 1) rest

end Ingest

open HybridSearch Ingest

/-- Concrete embedding oracle that always succeeds, for instantiating
the query-path theorems. -/
def embedW : String → Except SearchError (List Rat) :=
  fun _ => Except.ok [1, 2]

/-- Concrete embedding oracle that always fails with an embedding
service error. -/
def embedFailW : String → Except SearchError (List Rat) :=
  fun _ => Except.error (SearchError.embeddingServiceError "rate limited")

/-- Concrete store oracle returning two rows, for instantiating the
query-path theorems. -/
def storeW : String → SearchRequest → SearchOptions →
    Except SearchError (List (SearchRow String)) :=
  fun _ _ _ => Except.ok [{ fields := "doc1", score := 9 },
                          { fields := "doc2", score := 5 }]

/-- Concrete store oracle returning one row. -/
def storeOneW : String → SearchRequest → SearchOptions →
    Except SearchError (List (SearchRow String)) :=
  fun _ _ _ => Except.ok [{ fields := "doc1", score := 9 }]

/-- Concrete store oracle that always fails with a store query
error. -/
def storeFailW : String → SearchRequest → SearchOptions →
    Except SearchError (List (SearchRow String)) :=
  fun _ _ _ => Except.error (SearchError.storeQueryError "index offline")

/-- Five concrete dataset rows for the ingestion scenarios. -/
def movieRows : List MovieRow :=
  [{ series_title := "m1", overview := "o1" },
   { series_title := "m2", overview := "o2" },
   { series_title := "m3", overview := "o3" },
   { series_title := "m4", overview := "o4" },
   { series_title := "m5", overview := "o5" }]

/-- Concrete ingestion embedding oracle that fails exactly on the
third row's overview text. -/
def embedC : String → Except String (List Rat) :=
  fun s => if s = "o3" then Except.error "embedding failed"
           else Except.ok [1]

/-- Value function matching embedC on the rows where it succeeds. -/
def embFC : String → List Rat := fun _ => [1]

/-- Concrete id stream for the first ingestion run. -/
def idsA : Nat → String := fun i => "a" ++ Nat.repr i

/-- Concrete id stream for the second ingestion run, disjoint from
idsA. -/
def idsB : Nat → String := fun i => "b" ++ Nat.repr i

/-- Claim C2: for every supplied year range, inverted ranges included,
create_filter succeeds and emits a NumericRange conjunct on
Released_Year with min the low end, max the high end, and both bounds
inclusive. -/
theorem create_filter_year_range (lo hi : Int) (rating : Rat)
    (search_in_title : Bool) (title : String) :
    Conjunct.numericRange "Released_Year" (lo : Rat) (some (hi : Rat))
        true (some true)
      ∈ (create_filter (some (lo, hi)) rating search_in_title
          title).conjuncts := by
  simp [create_filter]

/-- Claim C10: whenever title search is enabled, create_filter emits a
match_phrase conjunct on Series_Title carrying the supplied title
verbatim, for every title string including the empty string. -/
theorem create_filter_title_phrase_verbatim (year_range : Option (Int × Int))
    (rating : Rat) (title : String) :
    Conjunct.matchPhrase "Series_Title" title
      ∈ (create_filter year_range rating true title).conjuncts := by
  simp [create_filter]

/-- Claim C3 counterexample: with a supplied minimum rating of 0,
create_filter emits no conjunct at all — in particular no IMDB_Rating
NumericRange — because the source tests the rating by truthiness. -/
theorem create_filter_minRating_zero_counterexample :
    (create_filter none 0 false "x").conjuncts = [] ∧
    Conjunct.numericRange "IMDB_Rating" 0 none false none
      ∉ (create_filter none 0 false "x").conjuncts := by
  constructor
  · rfl
  · simp [create_filter]

/-- Claim C3 (amended): for every nonzero (truthy) minimum rating r,
create_filter emits a NumericRange conjunct on IMDB_Rating with min r,
an exclusive lower bound, and no max bound, and a document whose
rating equals r fails that conjunct. -/
theorem create_filter_minRating_nonzero (year_range : Option (Int × Int))
    (r : Rat) (hr : r ≠ 0) (search_in_title : Bool) (title : String) :
    Conjunct.numericRange "IMDB_Rating" r none false none
      ∈ (create_filter year_range r search_in_title title).conjuncts ∧
    ∀ d : Document, d.num "IMDB_Rating" = some r →
      matchesConjunct d
        (Conjunct.numericRange "IMDB_Rating" r none false none) = false := by
  constructor
  · simp [create_filter, hr]
  · intro d hd
    simp [matchesConjunct, hd]

/-- Witness for the amended claim C3 at the concrete rating 8 and a
concrete document rated exactly 8. -/
theorem create_filter_minRating_nonzero_witness :
    (Conjunct.numericRange "IMDB_Rating" 8 none false none
        ∈ (create_filter none 8 false "").conjuncts) ∧
    matchesConjunct
        { num := fun _ => some 8, text := fun _ => none }
        (Conjunct.numericRange "IMDB_Rating" 8 none false none) = false :=
  ⟨(create_filter_minRating_nonzero none 8 (by decide) false "").1,
   (create_filter_minRating_nonzero none 8 (by decide) false "").2
      { num := fun _ => some 8, text := fun _ => none } rfl⟩

/-- Claim C5: with no year range, a rating of 0 (falsy, hence no
rating constraint) and title search disabled, create_filter returns
the empty conjunction, and that predicate matches every document. -/
theorem create_filter_no_constraints (title : String) :
    (create_filter none 0 false title).conjuncts = [] ∧
    ∀ d : Document, matchesFilter d (create_filter none 0 false title) = true := by
  refine ⟨rfl, ?_⟩
  intro d
  rfl

/-- Claim C9: create_filter tests rating and year_range by truthiness,
so a minimum rating of exactly 0 yields no IMDB_Rating conjunct and an
absent (falsy) year_range yields no Released_Year conjunct. -/
theorem create_filter_truthiness_edge :
    (∀ (year_range : Option (Int × Int)) (search_in_title : Bool)
        (title : String),
      ∀ c ∈ (create_filter year_range 0 search_in_title title).conjuncts,
        c.fieldName ≠ "IMDB_Rating") ∧
    (∀ (r : Rat) (search_in_title : Bool) (title : String),
      ∀ c ∈ (create_filter none r search_in_title title).conjuncts,
        c.fieldName ≠ "Released_Year") := by
  constructor
  · intro year_range search_in_title title c hc
    rcases year_range with _ | yr <;> cases search_in_title <;>
      simp [create_filter] at hc <;>
      first
        | (subst hc; simp [Conjunct.fieldName])
        | (rcases hc with rfl | rfl <;> simp [Conjunct.fieldName])
  · intro r search_in_title title c hc
    by_cases hr : r = 0 <;> cases search_in_title <;>
      simp [create_filter, hr] at hc <;>
      first
        | (subst hc; simp [Conjunct.fieldName])
        | (rcases hc with rfl | rfl <;> simp [Conjunct.fieldName])

/-- Witness for claim C9: the title conjunct of a filter built with
rating 0 is not a rating conjunct, and the rating conjunct of a filter
built without a year range is not a year conjunct. -/
theorem create_filter_truthiness_edge_witness :
    (Conjunct.matchPhrase "Series_Title" "t").fieldName ≠ "IMDB_Rating" ∧
    (Conjunct.numericRange "IMDB_Rating" 8 none false none).fieldName
      ≠ "Released_Year" :=
  ⟨create_filter_truthiness_edge.1 (some (2000, 2010)) true "t"
      (Conjunct.matchPhrase "Series_Title" "t") (by simp [create_filter]),
   create_filter_truthiness_edge.2 8 false ""
      (Conjunct.numericRange "IMDB_Rating" 8 none false none)
      (by simp [create_filter])⟩

/-- Helper: when the embedding call succeeds and k is at least 1,
search_couchbase returns exactly the store rows mapped to
(fields, score) pairs. -/
theorem search_couchbase_ok_eq {α : Type}
    (db_scope_search : String → SearchRequest → SearchOptions →
      Except SearchError (List (SearchRow α)))
    (index_name : String)
    (embed : String → Except SearchError (List Rat))
    (embedding_key search_text : String) (k : Int)
    (fields : List String) (search_options : SearchFilter)
    (v : List Rat) (rows : List (SearchRow α))
    (hembed : embed search_text = Except.ok v)
    (hk : 1 ≤ k)
    (hstore : db_scope_search index_name
        { vector_query :=
            { field_name := embedding_key, vector := v, num_candidates := k } }
        { limit := k, fields := fields, raw := search_options }
      = Except.ok rows) :
    search_couchbase db_scope_search index_name embed embedding_key
        search_text k fields search_options
      = Except.ok (rows.map (fun row => (row.fields, row.score))) := by
  have hk' : ¬ k < 1 := not_lt.mpr hk
  simp [search_couchbase, VectorQuery.create, hk', hembed, hstore, Bind.bind,
    Except.bind, Functor.map, Except.map, Pure.pure, Except.pure]

/-- Helper: when the embedding call succeeds but k is below 1, the
vector query construction fails with InvalidArgument, whatever the
store oracle is. -/
theorem search_couchbase_bad_k {α : Type}
    (db_scope_search : String → SearchRequest → SearchOptions →
      Except SearchError (List (SearchRow α)))
    (index_name : String)
    (embed : String → Except SearchError (List Rat))
    (embedding_key search_text : String) (k : Int)
    (fields : List String) (search_options : SearchFilter)
    (v : List Rat)
    (hembed : embed search_text = Except.ok v)
    (hk : k < 1) :
    search_couchbase db_scope_search index_name embed embedding_key
        search_text k fields search_options
      = Except.error (SearchError.invalidArgument
          "num_candidates must be at least 1") := by
  simp [search_couchbase, VectorQuery.create, hk, hembed, Bind.bind,
    Except.bind, Functor.map, Except.map]

/-- Claim C1: whenever the embedding call succeeds and the store
search returns a row sequence, search_couchbase returns exactly that
sequence — same length, same order, each element the row's fields
paired with its score — with no re-ranking, re-scoring or
post-filtering. -/
theorem search_returns_store_rows_verbatim {α : Type}
    (db_scope_search : String → SearchRequest → SearchOptions →
      Except SearchError (List (SearchRow α)))
    (index_name : String)
    (embed : String → Except SearchError (List Rat))
    (embedding_key search_text : String) (k : Int)
    (fields : List String) (search_options : SearchFilter)
    (v : List Rat) (rows : List (SearchRow α))
    (hembed : embed search_text = Except.ok v)
    (hk : 1 ≤ k)
    (hstore : db_scope_search index_name
        { vector_query :=
            { field_name := embedding_key, vector := v, num_candidates := k } }
        { limit := k, fields := fields, raw := search_options }
      = Except.ok rows) :
    search_couchbase db_scope_search index_name embed embedding_key
        search_text k fields search_options
      = Except.ok (rows.map (fun row => (row.fields, row.score))) :=
  search_couchbase_ok_eq db_scope_search index_name embed embedding_key
    search_text k fields search_options v rows hembed hk hstore

/-- Witness for claim C1 at a concrete embedding oracle, store oracle
returning two rows, and k = 5. -/
theorem search_returns_store_rows_verbatim_witness :
    search_couchbase storeW "movies-index" embedW "Overview_embedding"
        "space adventure" 5 ["*"] { conjuncts := [] }
      = Except.ok
          (([{ fields := "doc1", score := 9 },
             { fields := "doc2", score := 5 }] :
              List (SearchRow String)).map
            (fun row => (row.fields, row.score))) :=
  search_returns_store_rows_verbatim storeW "movies-index" embedW
    "Overview_embedding" "space adventure" 5 ["*"] { conjuncts := [] }
    [1, 2] [{ fields := "doc1", score := 9 }, { fields := "doc2", score := 5 }]
    rfl (by decide) rfl

/-- Claim C4: with the embedding call succeeding, a k below 1 makes
search_couchbase fail with InvalidArgument without consulting the
store (the result is the same for every store oracle), while a k of at
least 1 proceeds and, when the store honors its limit, returns at most
k results. -/
theorem search_k_validation {α : Type}
    (index_name : String)
    (embed : String → Except SearchError (List Rat))
    (embedding_key search_text : String)
    (fields : List String) (search_options : SearchFilter)
    (v : List Rat)
    (hembed : embed search_text = Except.ok v) (k : Int) :
    (k < 1 →
      ∀ db_scope_search : String → SearchRequest → SearchOptions →
          Except SearchError (List (SearchRow α)),
        search_couchbase db_scope_search index_name embed embedding_key
            search_text k fields search_options
          = Except.error (SearchError.invalidArgument
              "num_candidates must be at least 1")) ∧
    (1 ≤ k →
      ∀ (db_scope_search : String → SearchRequest → SearchOptions →
          Except SearchError (List (SearchRow α)))
        (rows : List (SearchRow α)),
        db_scope_search index_name
            { vector_query :=
                { field_name := embedding_key, vector := v,
                  num_candidates := k } }
            { limit := k, fields := fields, raw := search_options }
          = Except.ok rows →
        rows.length ≤ k.toNat →
        ∃ out : List (α × Rat),
          search_couchbase db_scope_search index_name embed embedding_key
              search_text k fields search_options
            = Except.ok out ∧ out.length ≤ k.toNat) := by
  constructor
  · intro hk db_scope_search
    exact search_couchbase_bad_k db_scope_search index_name embed
      embedding_key search_text k fields search_options v hembed hk
  · intro hk db_scope_search rows hstore hlen
    refine ⟨rows.map (fun row => (row.fields, row.score)), ?_, ?_⟩
    · exact search_couchbase_ok_eq db_scope_search index_name embed
        embedding_key search_text k fields search_options v rows hembed hk
        hstore
    · simpa using hlen

/-- Witness for claim C4: at k = 0 the search fails with
InvalidArgument for a concrete store oracle, and at k = 1 it succeeds
with at most one result for a one-row store oracle. -/
theorem search_k_validation_witness :
    (search_couchbase storeOneW "movies-index" embedW "Overview_embedding"
        "q" 0 ["*"] { conjuncts := [] }
      = Except.error (SearchError.invalidArgument
          "num_candidates must be at least 1")) ∧
    (∃ out : List (String × Rat),
      search_couchbase storeOneW "movies-index" embedW "Overview_embedding"
          "q" 1 ["*"] { conjuncts := [] }
        = Except.ok out ∧ out.length ≤ (1 : Int).toNat) :=
  ⟨(search_k_validation "movies-index" embedW "Overview_embedding" "q"
      ["*"] { conjuncts := [] } [1, 2] rfl 0).1 (by decide) storeOneW,
   (search_k_validation "movies-index" embedW "Overview_embedding" "q"
      ["*"] { conjuncts := [] } [1, 2] rfl 1).2 (by decide) storeOneW
      [{ fields := "doc1", score := 9 }] rfl (by decide)⟩

/-- Claim C7: search_couchbase propagates failures of its two remote
calls unchanged and retries nothing: an error from the embedding call
surfaces verbatim, and (for a valid k) an error from the store search
surfaces verbatim; in both cases the whole search fails and no partial
result sequence is returned. -/
theorem search_propagates_remote_failures {α : Type}
    (db_scope_search : String → SearchRequest → SearchOptions →
      Except SearchError (List (SearchRow α)))
    (index_name : String)
    (embed : String → Except SearchError (List Rat))
    (embedding_key search_text : String) (k : Int)
    (fields : List String) (search_options : SearchFilter) :
    (∀ e : SearchError, embed search_text = Except.error e →
      search_couchbase db_scope_search index_name embed embedding_key
          search_text k fields search_options
        = Except.error e) ∧
    (∀ (v : List Rat) (e : SearchError),
      embed search_text = Except.ok v → 1 ≤ k →
      db_scope_search index_name
          { vector_query :=
              { field_name := embedding_key, vector := v,
                num_candidates := k } }
          { limit := k, fields := fields, raw := search_options }
        = Except.error e →
      search_couchbase db_scope_search index_name embed embedding_key
          search_text k fields search_options
        = Except.error e) := by
  constructor
  · intro e hembed
    simp [search_couchbase, hembed, Bind.bind, Except.bind]
  · intro v e hembed hk hstore
    have hk' : ¬ k < 1 := not_lt.mpr hk
    simp [search_couchbase, VectorQuery.create, hk', hembed, hstore,
      Bind.bind, Except.bind, Functor.map, Except.map]

/-- Witness for claim C7: a concrete failing embedding oracle makes
the search fail with that embedding error, and a concrete failing
store oracle makes the search fail with that store error. -/
theorem search_propagates_remote_failures_witness :
    (search_couchbase storeW "movies-index" embedFailW "Overview_embedding"
        "q" 5 ["*"] { conjuncts := [] }
      = Except.error (SearchError.embeddingServiceError "rate limited")) ∧
    (search_couchbase storeFailW "movies-index" embedW "Overview_embedding"
        "q" 5 ["*"] { conjuncts := [] }
      = Except.error (SearchError.storeQueryError "index offline")) :=
  ⟨(search_propagates_remote_failures storeW "movies-index" embedFailW
      "Overview_embedding" "q" 5 ["*"] { conjuncts := [] }).1
      (SearchError.embeddingServiceError "rate limited") rfl,
   (search_propagates_remote_failures storeFailW "movies-index" embedW
      "Overview_embedding" "q" 5 ["*"] { conjuncts := [] }).2
      [1, 2] (SearchError.storeQueryError "index offline") rfl (by decide)
      rfl⟩

/-- Helper: upserting under an id not present in the store appends. -/
theorem upsert_fresh (store : List (String × IngestedDoc))
    (doc_id : String) (doc : IngestedDoc)
    (h : doc_id ∉ storeIds store) :
    upsert store doc_id doc = store ++ [(doc_id, doc)] := by
  have hfalse : store.any (fun p => p.1 = doc_id) = false := by
    simp only [List.any_eq_false, decide_eq_true_eq]
    intro p hp hpe
    exact h (by simpa [storeIds, hpe] using List.mem_map_of_mem Prod.fst hp)
  simp [upsert, hfalse]

/-- Helper: expectedDocs produces one document per row. -/
theorem expectedDocs_length (embF : String → List Rat)
    (ids : Nat → String) :
    ∀ (i : Nat) (rows : List MovieRow),
      (expectedDocs embF ids i rows).length = rows.length := by
  intro i rows
  induction rows generalizing i with
  | nil => rfl
  | cons row rest ih => simp [expectedDocs, ih]

/-- Helper: the ids of expectedDocs are the id stream sampled at the
consecutive draw indices, independent of the rows' content. -/
theorem storeIds_expectedDocs (embF : String → List Rat)
    (ids : Nat → String) :
    ∀ (i : Nat) (rows : List MovieRow),
      storeIds (expectedDocs embF ids i rows)
        = (List.range rows.length).map (fun t => ids (i + t)) := by
  intro i rows
  induction rows generalizing i with
  | nil => rfl
  | cons row rest ih =>
    simp only [expectedDocs, storeIds, List.map_cons, List.length_cons,
      List.range_succ_eq_map, List.map_map]
    have hcast : storeIds (expectedDocs embF ids (i + 1) rest)
        = (List.range rest.length).map (fun t => ids (i + 1 + t)) := ih (i + 1)
    simp only [storeIds] at hcast
    rw [hcast]
    refine congrArg₂ List.cons (by rw [Nat.add_zero]) ?_
    exact List.map_congr_left (fun t _ => by
      simp [Function.comp, Nat.add_assoc, Nat.add_comm 1 t])

/-- Helper: the documents of expectedDocs carry the source rows in
order. -/
theorem expectedDocs_rows (embF : String → List Rat)
    (ids : Nat → String) :
    ∀ (i : Nat) (rows : List MovieRow),
      (expectedDocs embF ids i rows).map (fun p => p.2.row) = rows := by
  intro i rows
  induction rows generalizing i with
  | nil => rfl
  | cons row rest ih => simp [expectedDocs, ih]

/-- Helper: a run segment on which every embedding succeeds appends
exactly the expected documents, provided the drawn ids are fresh for
the store and pairwise distinct. -/
theorem ingest_loop_all_ok (embed : String → Except String (List Rat))
    (embF : String → List Rat) (ids : Nat → String) :
    ∀ (rows : List MovieRow) (i : Nat)
      (store : List (String × IngestedDoc)),
      (∀ row ∈ rows, embed row.overview = Except.ok (embF row.overview)) →
      (∀ j, i ≤ j → j < i + rows.length → ids j ∉ storeIds store) →
      (∀ j j', i ≤ j → j < j' → j' < i + rows.length → ids j ≠ ids j') →
      ingest_loop embed ids i rows store
        = IngestOutcome.completed (store ++ expectedDocs embF ids i rows) := by
  intro rows
  induction rows with
  | nil =>
    intro i store _ _ _
    simp [ingest_loop, expectedDocs]
  | cons row rest ih =>
    intro i store hok hfresh hinj
    have hrow : embed row.overview = Except.ok (embF row.overview) :=
      hok row (List.mem_cons_self row rest)
    have hfresh0 : ids i ∉ storeIds store := hfresh i le_rfl (by simp)
    have hok2 : ∀ r ∈ rest, embed r.overview = Except.ok (embF r.overview) :=
      fun r hr => hok r (List.mem_cons_of_mem row hr)
    have hfresh2 : ∀ j, i + 1 ≤ j → j < (i + 1) + rest.length →
        ids j ∉ storeIds (store ++
          [(ids i, { row := row, overview_embedding := embF row.overview })]) := by
      intro j hj1 hj2 hmem
      have hjlt : j < i + (row :: rest).length := by
        simp only [List.length_cons]; omega
      have hsplit : ids j ∈ storeIds store ∨ ids j = ids i := by
        simpa [storeIds, List.mem_append] using hmem
      rcases hsplit with h | h
      · exact hfresh j (by omega) hjlt h
      · exact (hinj i j le_rfl (by omega) hjlt) h.symm
    have hinj2 : ∀ j j', i + 1 ≤ j → j < j' → j' < (i + 1) + rest.length →
        ids j ≠ ids j' := by
      intro j j' hj hjj hj'
      refine hinj j j' (by omega) hjj ?_
      simp only [List.length_cons]; omega
    simp only [ingest_loop, hrow]
    rw [upsert_fresh store (ids i) _ hfresh0,
      ih (i + 1) _ hok2 hfresh2 hinj2]
    simp [expectedDocs, List.append_assoc]

/-- Helper: a run segment that reaches a row whose embedding fails
aborts with exactly the documents of the preceding rows, whatever
rows follow the failing one. -/
theorem ingest_loop_abort (embed : String → Except String (List Rat))
    (embF : String → List Rat) (ids : Nat → String)
    (bad : MovieRow) (e : String)
    (hbad : embed bad.overview = Except.error e) :
    ∀ (pre : List MovieRow) (i : Nat)
      (store : List (String × IngestedDoc)),
      (∀ row ∈ pre, embed row.overview = Except.ok (embF row.overview)) →
      (∀ j, i ≤ j → j < i + pre.length → ids j ∉ storeIds store) →
      (∀ j j', i ≤ j → j < j' → j' < i + pre.length → ids j ≠ ids j') →
      ∀ post : List MovieRow,
        ingest_loop embed ids i (pre ++ bad :: post) store
          = IngestOutcome.aborted (store ++ expectedDocs embF ids i pre) e := by
  intro pre
  induction pre with
  | nil =>
    intro i store _ _ _ post
    simp [ingest_loop, hbad, expectedDocs]
  | cons row rest ih =>
    intro i store hok hfresh hinj post
    have hrow : embed row.overview = Except.ok (embF row.overview) :=
      hok row (List.mem_cons_self row rest)
    have hfresh0 : ids i ∉ storeIds store := hfresh i le_rfl (by simp)
    have hok2 : ∀ r ∈ rest, embed r.overview = Except.ok (embF r.overview) :=
      fun r hr => hok r (List.mem_cons_of_mem row hr)
    have hfresh2 : ∀ j, i + 1 ≤ j → j < (i + 1) + rest.length →
        ids j ∉ storeIds (store ++
          [(ids i, { row := row, overview_embedding := embF row.overview })]) := by
      intro j hj1 hj2 hmem
      have hjlt : j < i + (row :: rest).length := by
        simp only [List.length_cons]; omega
      have hsplit : ids j ∈ storeIds store ∨ ids j = ids i := by
        simpa [storeIds, List.mem_append] using hmem
      rcases hsplit with h | h
      · exact hfresh j (by omega) hjlt h
      · exact (hinj i j le_rfl (by omega) hjlt) h.symm
    have hinj2 : ∀ j j', i + 1 ≤ j → j < j' → j' < (i + 1) + rest.length →
        ids j ≠ ids j' := by
      intro j j' hj hjj hj'
      refine hinj j j' (by omega) hjj ?_
      simp only [List.length_cons]; omega
    simp only [List.cons_append, ingest_loop, hrow]
    rw [List.append_eq, upsert_fresh store (ids i) _ hfresh0,
      ih (i + 1) _ hok2 hfresh2 hinj2 post]
    simp [expectedDocs, List.append_assoc]

/-- Claim C6 counterexample: on the concrete 5-row batch where row 3
fails embedding, the ingest run aborts after the first two rows — the
store holds exactly 2 documents, rows 4 and 5 are never processed and
no per-row success/failure report is produced. -/
theorem ingest_row_failure_counterexample :
    ingest_run embedC idsA movieRows []
      = IngestOutcome.aborted
          [("a0", { row := { series_title := "m1", overview := "o1" },
                    overview_embedding := [1] }),
           ("a1", { row := { series_title := "m2", overview := "o2" },
                    overview_embedding := [1] })] "embedding failed" ∧
    ([("a0", { row := { series_title := "m1", overview := "o1" },
               overview_embedding := [1] }),
      ("a1", { row := { series_title := "m2", overview := "o2" },
               overview_embedding := [1] })] :
        List (String × IngestedDoc)).length = 2 := by
  constructor
  · rfl
  · rfl

/-- Claim C6 (amended): a failure while processing one row aborts the
whole remaining batch — the run ends at the failing row with exactly
the earlier rows' documents upserted, identically for every choice of
the rows that follow, and reports the single caught error instead of a
per-row aggregate. -/
theorem ingest_aborts_batch_on_row_failure
    (embed : String → Except String (List Rat)) (embF : String → List Rat)
    (ids : Nat → String) (pre : List MovieRow) (bad : MovieRow) (e : String)
    (hok : ∀ row ∈ pre, embed row.overview = Except.ok (embF row.overview))
    (hbad : embed bad.overview = Except.error e)
    (hinj : ∀ j' < pre.length, ∀ j < j', ids j ≠ ids j') :
    ∀ post : List MovieRow,
      ingest_run embed ids (pre ++ bad :: post) []
        = IngestOutcome.aborted (expectedDocs embF ids 0 pre) e ∧
      (expectedDocs embF ids 0 pre).length = pre.length := by
  intro post
  refine ⟨?_, expectedDocs_length embF ids 0 pre⟩
  have habort := ingest_loop_abort embed embF ids bad e hbad pre 0 []
    hok
    (by intro j _ _ hmem; simp [storeIds] at hmem)
    (fun j j' _ hjj hj' => hinj j' (by omega) j hjj)
    post
  simpa [ingest_run] using habort

/-- Witness for the amended claim C6 at the concrete 5-row batch: the
run aborts with the two documents of the first two rows, whatever the
two rows after the failing one are. -/
theorem ingest_aborts_batch_on_row_failure_witness :
    ingest_run embedC idsA
        ([{ series_title := "m1", overview := "o1" },
          { series_title := "m2", overview := "o2" }] ++
         { series_title := "m3", overview := "o3" } ::
          [{ series_title := "m4", overview := "o4" },
           { series_title := "m5", overview := "o5" }]) []
      = IngestOutcome.aborted
          (expectedDocs embFC idsA 0
            [{ series_title := "m1", overview := "o1" },
             { series_title := "m2", overview := "o2" }]) "embedding failed" ∧
    (expectedDocs embFC idsA 0
        [{ series_title := "m1", overview := "o1" },
         { series_title := "m2", overview := "o2" }]).length
      = ([{ series_title := "m1", overview := "o1" },
          { series_title := "m2", overview := "o2" }] : List MovieRow).length :=
  ingest_aborts_batch_on_row_failure embedC embFC idsA
    [{ series_title := "m1", overview := "o1" },
     { series_title := "m2", overview := "o2" }]
    { series_title := "m3", overview := "o3" } "embedding failed"
    (by simp [embedC, embFC]) rfl (by decide)
    [{ series_title := "m4", overview := "o4" },
     { series_title := "m5", overview := "o5" }]

/-- Claim C8: the ingest run draws each row's id from the uuid stream
by draw index alone — independent of the row's content — and upserts
under it; re-running the same rows with a second, disjoint id stream
upserts every row again under new ids, so every source row ends up
stored twice (no deduplication by content). -/
theorem ingest_rerun_creates_duplicates
    (embed : String → Except String (List Rat)) (embF : String → List Rat)
    (ids1 ids2 : Nat → String) (rows : List MovieRow)
    (hok : ∀ row ∈ rows, embed row.overview = Except.ok (embF row.overview))
    (hinj1 : ∀ j' < rows.length, ∀ j < j', ids1 j ≠ ids1 j')
    (hinj2 : ∀ j' < rows.length, ∀ j < j', ids2 j ≠ ids2 j')
    (hdisj : ∀ j < rows.length, ∀ j' < rows.length, ids1 j ≠ ids2 j') :
    ∃ store1 store2 : List (String × IngestedDoc),
      ingest_run embed ids1 rows [] = IngestOutcome.completed store1 ∧
      ingest_run embed ids2 rows store1 = IngestOutcome.completed store2 ∧
      storeIds store1 = (List.range rows.length).map (fun t => ids1 t) ∧
      store2 = store1 ++ expectedDocs embF ids2 0 rows ∧
      store2.length = rows.length + rows.length ∧
      store2.map (fun p => p.2.row) = rows ++ rows := by
  refine ⟨expectedDocs embF ids1 0 rows,
    expectedDocs embF ids1 0 rows ++ expectedDocs embF ids2 0 rows,
    ?_, ?_, ?_, rfl, ?_, ?_⟩
  · have hrun := ingest_loop_all_ok embed embF ids1 rows 0 [] hok
      (by intro j _ _ hmem; simp [storeIds] at hmem)
      (fun j j' _ hjj hj' => hinj1 j' (by omega) j hjj)
    simpa [ingest_run] using hrun
  · have hfresh : ∀ j, 0 ≤ j → j < 0 + rows.length →
        ids2 j ∉ storeIds (expectedDocs embF ids1 0 rows) := by
      intro j _ hj hmem
      rw [storeIds_expectedDocs] at hmem
      simp only [List.mem_map, List.mem_range, Nat.zero_add] at hmem
      obtain ⟨t, ht, hte⟩ := hmem
      exact hdisj t ht j (by omega) hte
    have hrun := ingest_loop_all_ok embed embF ids2 rows 0
      (expectedDocs embF ids1 0 rows) hok hfresh
      (fun j j' _ hjj hj' => hinj2 j' (by omega) j hjj)
    simpa [ingest_run] using hrun
  · rw [storeIds_expectedDocs]
    simp [Nat.zero_add]
  · rw [List.length_append, expectedDocs_length, expectedDocs_length]
  · rw [List.map_append, expectedDocs_rows, expectedDocs_rows]

/-- Witness for claim C8: two concrete rows ingested twice, with the
id streams idsA and idsB, yield a store holding each row twice. -/
theorem ingest_rerun_creates_duplicates_witness :
    ∃ store1 store2 : List (String × IngestedDoc),
      ingest_run embedC idsA
          [{ series_title := "m1", overview := "o1" },
           { series_title := "m2", overview := "o2" }] []
        = IngestOutcome.completed store1 ∧
      ingest_run embedC idsB
          [{ series_title := "m1", overview := "o1" },
           { series_title := "m2", overview := "o2" }] store1
        = IngestOutcome.completed store2 ∧
      storeIds store1
        = (List.range ([{ series_title := "m1", overview := "o1" },
                        { series_title := "m2", overview := "o2" }] :
              List MovieRow).length).map (fun t => idsA t) ∧
      store2 = store1 ++ expectedDocs embFC idsB 0
          [{ series_title := "m1", overview := "o1" },
           { series_title := "m2", overview := "o2" }] ∧
      store2.length
        = ([{ series_title := "m1", overview := "o1" },
            { series_title := "m2", overview := "o2" }] :
              List MovieRow).length
          + ([{ series_title := "m1", overview := "o1" },
              { series_title := "m2", overview := "o2" }] :
                List MovieRow).length ∧
      store2.map (fun p => p.2.row)
        = [{ series_title := "m1", overview := "o1" },
           { series_title := "m2", overview := "o2" }]
          ++ [{ series_title := "m1", overview := "o1" },
              { series_title := "m2", overview := "o2" }] :=
  ingest_rerun_creates_duplicates embedC embFC idsA idsB
    [{ series_title := "m1", overview := "o1" },
     { series_title := "m2", overview := "o2" }]
    (by simp [embedC, embFC]) (by decide) (by decide) (by decide)
